import Mathlib

/-!
Verification of the Meteor Madness impact-simulation core.

Shallow embedding of the Python sources
`backend/app/physics/orbital_mechanics.py`,
`backend/app/physics/impact_physics.py` and
`backend/app/physics/gpu_accelerated.py` over an arbitrary linear ordered
field `α` with a floor.  Python floats are modelled by exact field
arithmetic; transcendental library calls (`math.sin`, `math.cos`,
`math.sqrt`, `math.exp`, `math.atan2`, `math.asin`, `math.log10`,
float `**`) and `math.pi` are threaded through a bundle `RealFuns α` of
function parameters, so every definition is computable and theorems may
instantiate the bundle with the genuine real functions (`Real.sin`, …)
or, for concrete evaluation, with computable rational stand-ins.
`math.isnan` is modelled by a bundled predicate (exact arithmetic has no
NaN).  Python dict inputs are modelled as records with every key present;
`dict.get` defaults of the source only matter for absent keys and are not
exercised by any theorem below.
-/

namespace MeteorSim

set_option linter.unusedSectionVars false

set_option linter.unusedVariables false

/-- The bundle of real-valued library functions a Python module calls:
`sin`, `cos`, `sqrt`, `exp`, `asin`, `atan2` (arguments in the Python
order `atan2 y x`), `log10`, float `**` on a positive base (`powr`),
`math.pi`, and the `math.isnan` test. -/
structure RealFuns (α : Type) where
  sin : α → α
  cos : α → α
  sqrt : α → α
  exp : α → α
  asin : α → α
  atan2 : α → α → α
  log10 : α → α
  powr : α → α → α
  pi : α
  isnan : α → Bool

variable {α : Type} [LinearOrderedField α] [FloorRing α]

/-- `math.radians`: degrees to radians, `x * pi / 180`. -/
def radiansF (F : RealFuns α) (x : α) : α := x * F.pi / 180

/-- `math.degrees`: radians to degrees, `x * 180 / pi`. -/
def degreesF (F : RealFuns α) (x : α) : α := x * 180 / F.pi

/-- Python float `%` with a positive modulus: `x - m * floor (x / m)`. -/
def pymod (x m : α) : α := x - m * (⌊x / m⌋ : ℤ)

/-- A 3-vector, as the numpy arrays of the source. -/
structure Vec3 (α : Type) where
  x : α
  y : α
  z : α
deriving DecidableEq

namespace Vec3

def sub (a b : Vec3 α) : Vec3 α := ⟨a.x - b.x, a.y - b.y, a.z - b.z⟩

def smul (c : α) (a : Vec3 α) : Vec3 α := ⟨c * a.x, c * a.y, c * a.z⟩

def sdiv (a : Vec3 α) (c : α) : Vec3 α := ⟨a.x / c, a.y / c, a.z / c⟩

/-- Squared Euclidean norm; `np.linalg.norm v` is `F.sqrt (sqNorm v)`. -/
def sqNorm (a : Vec3 α) : α := a.x ^ 2 + a.y ^ 2 + a.z ^ 2

/-- `np.cross a b`. -/
def cross (a b : Vec3 α) : Vec3 α :=
  ⟨a.y * b.z - a.z * b.y, a.z * b.x - a.x * b.z, a.x * b.y - a.y * b.x⟩

end Vec3

/-! ## Physical constants of `orbital_mechanics.py` -/

def AU_TO_KM : α := 149597870.7

def EARTH_RADIUS : α := 6371

def SUN_MU : α := 1.32712440018e20

/-! ## `orbital_mechanics.py`: Keplerian propagation -/

/-- Keplerian orbital elements (the `orbital_elements` dict with all six
keys present). -/
structure OrbElems (α : Type) where
  semi_major_axis_au : α
  eccentricity : α
  inclination_deg : α
  longitude_ascending_node_deg : α
  argument_periapsis_deg : α
  mean_anomaly_deg : α
deriving DecidableEq

/-- The Newton-Raphson loop of `_solve_keplers_equation`, fuel-indexed
(the source runs exactly 100 iterations at most): at each step
`f = E - e sin E - M`, `fp = 1 - e cos E`, `Enew = E - f / fp`; return
`Enew` once `|Enew - E| < tol`, and the last estimate when the fuel (the
iteration budget) runs out.  Lean's `x / 0 = 0` stands in for Python's
`ZeroDivisionError`; `solveKeplerChecked` below models the division
explicitly and is proved to never take the error branch for `0 ≤ e < 1`. -/
def solveKeplerGo (F : RealFuns α) (M e tol : α) : ℕ → α → α
  | 0, E => E
  | n + 1, E =>
    let f := E - e * F.sin E - M
    let fp := 1 - e * F.cos E
    let Enew := E - f / fp
    if |Enew - E| < tol then Enew else solveKeplerGo F M e tol n Enew

/-- `_solve_keplers_equation(M, e)` with the default tolerance `1e-8`:
initial guess `E₀ = M`, at most 100 iterations. -/
def solve_keplers_equation (F : RealFuns α) (M e : α) : α :=
  solveKeplerGo F M e 1e-8 100 M

/-- Variant of `solveKeplerGo` that reports a division by zero
(`none`) instead of Lean's junk value, modelling Python's
`ZeroDivisionError`. -/
def solveKeplerCheckedGo (F : RealFuns α) (M e tol : α) : ℕ → α → Option α
  | 0, E => some E
  | n + 1, E =>
    let f := E - e * F.sin E - M
    let fp := 1 - e * F.cos E
    if fp = 0 then none
    else
      let Enew := E - f / fp
      if |Enew - E| < tol then some Enew else solveKeplerCheckedGo F M e tol n Enew

def solveKeplerChecked (F : RealFuns α) (M e : α) : Option α :=
  solveKeplerCheckedGo F M e 1e-8 100 M

/-- `keplerian_to_cartesian(orbital_elements)`: heliocentric position and
velocity (km, km/s).  `math.sqrt` is modelled by the total bundle field
`F.sqrt` (its arguments are non-negative whenever `0 ≤ e < 1`, the regime
of every claim). -/
def keplerian_to_cartesian (F : RealFuns α) (el : OrbElems α) :
    Vec3 α × Vec3 α :=
  let a := el.semi_major_axis_au * AU_TO_KM
  let e := el.eccentricity
  let i := radiansF F el.inclination_deg
  let omega := radiansF F el.longitude_ascending_node_deg
  let w := radiansF F el.argument_periapsis_deg
  let M := radiansF F el.mean_anomaly_deg
  let E := solve_keplers_equation F M e
  let nu := 2 * F.atan2 (F.sqrt (1 + e) * F.sin (E / 2))
      (F.sqrt (1 - e) * F.cos (E / 2))
  let r := a * (1 - e * F.cos E)
  let x_orb := r * F.cos nu
  let y_orb := r * F.sin nu
  let z_orb : α := 0
  let a_m := a * 1000
  let h := F.sqrt (SUN_MU * a_m * (1 - e ^ 2))
  let r_m := r * 1000
  let vx_orb := -(h / r_m) * F.sin nu / 1000
  let vy_orb := h / r_m * (e + F.cos nu) / 1000
  let vz_orb : α := 0
  let cos_w := F.cos w
  let sin_w := F.sin w
  let cos_i := F.cos i
  let sin_i := F.sin i
  let cos_o := F.cos omega
  let sin_o := F.sin omega
  let R11 := cos_o * cos_w - sin_o * sin_w * cos_i
  let R12 := -cos_o * sin_w - sin_o * cos_w * cos_i
  let R13 := sin_o * sin_i
  let R21 := sin_o * cos_w + cos_o * sin_w * cos_i
  let R22 := -sin_o * sin_w + cos_o * cos_w * cos_i
  let R23 := -cos_o * sin_i
  let R31 := sin_w * sin_i
  let R32 := cos_w * sin_i
  let R33 := cos_i
  let position : Vec3 α :=
    ⟨R11 * x_orb + R12 * y_orb + R13 * z_orb,
      R21 * x_orb + R22 * y_orb + R23 * z_orb,
      R31 * x_orb + R32 * y_orb + R33 * z_orb⟩
  let velocity : Vec3 α :=
    ⟨R11 * vx_orb + R12 * vy_orb + R13 * vz_orb,
      R21 * vx_orb + R22 * vy_orb + R23 * vz_orb,
      R31 * vx_orb + R32 * vy_orb + R33 * vz_orb⟩
  (position, velocity)

/-! ## `orbital_mechanics.py`: Earth-intercept search -/

/-- `_calculate_azimuth(velocity_vector)`: `degrees(atan2(vx, vy)) % 360`
(note the source's argument order: `vx` is `atan2`'s first, `y`, slot). -/
def calculate_azimuth (F : RealFuns α) (velocity_vector : Vec3 α) : α :=
  pymod (degreesF F (F.atan2 velocity_vector.x velocity_vector.y)) 360

/-- The running best of the mean-anomaly sweep in `find_earth_intercept`:
the retained step (degrees), its state, its heliocentric distance and the
residual `|distance - 1 AU|`. -/
structure SweepBest (α : Type) where
  step : ℕ
  position : Vec3 α
  velocity : Vec3 α
  distance : α
  diff : α

/-- The `for step in range(0, 361, 2)` sweep of `find_earth_intercept`:
propagate each candidate mean anomaly and keep the strictly smallest
residual (`closest = None`, `closest_diff = inf` initially, so the first
candidate always wins). -/
def interceptSweep (F : RealFuns α) (el : OrbElems α) : Option (SweepBest α) :=
  (List.range 181).foldl
    (fun best k =>
      let step : ℕ := 2 * k
      let test_elements := { el with mean_anomaly_deg := (step : α) }
      let pv := keplerian_to_cartesian F test_elements
      let distance := F.sqrt (Vec3.sqNorm pv.1)
      let diff := |distance - 1 * AU_TO_KM|
      match best with
      | none => some ⟨step, pv.1, pv.2, distance, diff⟩
      | some b =>
        if diff < b.diff then some ⟨step, pv.1, pv.2, distance, diff⟩
        else some b)
    none

/-- The `find_earth_intercept` result dictionary. -/
structure Intercept (α : Type) where
  entry_velocity_km_s : α
  entry_angle_deg : α
  latitude : α
  longitude : α
  azimuth_deg : α
  mean_anomaly_deg : ℕ
  distance_to_orbit_km : α
  relative_velocity_vector : Vec3 α
  position_vector : Vec3 α
  relative_position_vector : Vec3 α

/-- `find_earth_intercept(orbital_elements)`: sweep, tolerance test
(5,000 km), Earth-position estimate along the same radial direction,
relative kinematics and geographic entry parameters. -/
def find_earth_intercept (F : RealFuns α) (el : OrbElems α) :
    Option (Intercept α) :=
  let target_radius := 1 * (AU_TO_KM : α)
  let tolerance_km : α := 5000
  match interceptSweep F el with
  | none => none
  | some b =>
    if b.diff > tolerance_km then none
    else if b.distance = 0 then none
    else
      let direction := Vec3.sdiv b.position b.distance
      let earth_pos := Vec3.smul target_radius direction
      let relative_position := Vec3.sub b.position earth_pos
      let rel_pos_norm0 := F.sqrt (Vec3.sqNorm relative_position)
      let rel_pos_norm := if rel_pos_norm0 < 1 then 1 else rel_pos_norm0
      let earth_speed : α := 29.78
      let cr := Vec3.cross ⟨0, 0, 1⟩ b.position
      let earth_dir :=
        if F.sqrt (Vec3.sqNorm cr) = 0 then (⟨0, 30, 0⟩ : Vec3 α)
        else Vec3.smul earth_speed (Vec3.sdiv cr (F.sqrt (Vec3.sqNorm cr)))
      let relative_vel := Vec3.sub b.velocity earth_dir
      let rel_speed := F.sqrt (Vec3.sqNorm relative_vel)
      if rel_speed < 1e-6 then none
      else
        let v_norm := Vec3.sdiv relative_vel rel_speed
        let lat_from_position :=
          degreesF F (F.asin (relative_position.z / rel_pos_norm))
        let lon_from_position :=
          degreesF F (F.atan2 relative_position.y relative_position.x)
        let azimuth := calculate_azimuth F relative_vel
        let entry_angle_deg := degreesF F (F.asin (min 1 (max 0 |v_norm.z|)))
        some
          { entry_velocity_km_s := rel_speed
            entry_angle_deg := entry_angle_deg
            latitude := lat_from_position
            longitude := lon_from_position
            azimuth_deg := azimuth
            mean_anomaly_deg := b.step
            distance_to_orbit_km := b.diff
            relative_velocity_vector := relative_vel
            position_vector := b.position
            relative_position_vector := relative_position }

/-! ## `orbital_mechanics.py`: atmospheric entry -/

/-- One row of the `trajectory` list of `calculate_atmospheric_entry`. -/
structure TrajPoint (α : Type) where
  time : α
  altitude_km : α
  velocity_km_s : α
  horizontal_distance_km : α
  dynamic_pressure_pa : α
  atmospheric_density : α
deriving DecidableEq

/-- Output of one integration phase: appended points and the final
`(h, v, x, time)` state, plus (phase 2) whether the loop was left through
the fragmentation `break`. -/
structure PhaseOut (α : Type) where
  pts : List (TrajPoint α)
  h : α
  v : α
  x : α
  t : α
  frag : Bool

/-- Phase 1 of `calculate_atmospheric_entry` (`start_altitude →
entry_altitude`): ballistic, constant velocity, `dt = 1 s`, guard
`h > entry_alt ∧ time < 600`.  The fuel (601) strictly exceeds the 600
iterations the time guard admits, so it never cuts the loop short. -/
def approachGo (entryAlt_m sinA cosA : α) :
    ℕ → α → α → α → α → PhaseOut α
  | 0, h, v, x, t => ⟨[], h, v, x, t, false⟩
  | n + 1, h, v, x, t =>
    if h > entryAlt_m ∧ t < 600 then
      let pt : TrajPoint α := ⟨t, h / 1000, v / 1000, x / 1000, 0, 0⟩
      let dx := v * cosA * 1
      let dh := -(v * sinA * 1)
      let res := approachGo entryAlt_m sinA cosA n (h + dh) v (x + dx) (t + 1)
      ⟨pt :: res.pts, res.h, res.v, res.x, res.t, res.frag⟩
    else ⟨[], h, v, x, t, false⟩

/-- Phase 2 of `calculate_atmospheric_entry` (`entry_altitude → 0`):
exponential atmosphere `ρ = 1.225 exp (-h/8500)`, drag with `Cd = 1`,
gravity along the path, `dt = 0.1 s`, guard
`h > 0 ∧ time < maxT ∧ v > 0`, and the fragmentation `break` once
`q > 1 MPa ∧ diameter < 100` (recorded in `frag`).  The fuel (1201)
strictly exceeds the 1200 iterations the time guard admits. -/
def entryGo (F : RealFuns α) (diam mass cross_section sinA cosA maxT : α) :
    ℕ → α → α → α → α → PhaseOut α
  | 0, h, v, x, t => ⟨[], h, v, x, t, false⟩
  | n + 1, h, v, x, t =>
    if h > 0 ∧ t < maxT ∧ v > 0 then
      let rho := 1.225 * F.exp (-(h / 8500))
      let drag := 0.5 * 1 * cross_section * rho * v ^ 2
      let a_drag := -drag / mass
      let a_gravity := -(9.81) * sinA
      let a_total := a_drag + a_gravity
      let v2 := v + a_total * 0.1
      let dx := v2 * cosA * 0.1
      let dh := -(v2 * sinA * 0.1)
      let x2 := x + dx
      let h2 := h + dh
      let q := 0.5 * rho * v2 ^ 2
      let pt : TrajPoint α := ⟨t, h2 / 1000, v2 / 1000, x2 / 1000, q, rho⟩
      let t2 := t + 0.1
      if q > 1e6 ∧ diam < 100 then ⟨[pt], h2, v2, x2, t2, true⟩
      else
        let res := entryGo F diam mass cross_section sinA cosA maxT n h2 v2 x2 t2
        ⟨pt :: res.pts, res.h, res.v, res.x, res.t, res.frag⟩
    else ⟨[], h, v, x, t, false⟩

/-- The whole integration of `calculate_atmospheric_entry` up to, but not
including, the construction of the returned dictionary: both phases run
in sequence from `h = start_altitude`, `v = v0`, `x = 0`, `time = 0`,
`max_time = time + 120` taken after phase 1. -/
def entrySim (F : RealFuns α)
    (initial_velocity_km_s entry_angle_deg asteroid_diameter_m
      asteroid_density_kg_m3 entry_altitude_km start_altitude_km : α) :
    PhaseOut α :=
  let v0 := initial_velocity_km_s * 1000
  let angle_rad := radiansF F entry_angle_deg
  let radius := asteroid_diameter_m / 2
  let mass := 4 / 3 * F.pi * radius ^ 3 * asteroid_density_kg_m3
  let cross_section := F.pi * radius ^ 2
  let sinA := F.sin angle_rad
  let cosA := F.cos angle_rad
  let p1 := approachGo (entry_altitude_km * 1000) sinA cosA 601
      (start_altitude_km * 1000) v0 0 0
  let max_time := p1.t + 120
  let p2 := entryGo F asteroid_diameter_m mass cross_section sinA cosA
      max_time 1201 p1.h p1.v p1.x p1.t
  ⟨p1.pts ++ p2.pts, p2.h, p2.v, p2.x, p2.t, p2.frag⟩

/-- The dictionary `calculate_atmospheric_entry` returns. -/
structure EntryResult (α : Type) where
  trajectory : List (TrajPoint α)
  impact_velocity_km_s : α
  impact_distance_km : α
  entry_angle_deg : α
  fragmented : Bool
  airburst_altitude_km : α
deriving DecidableEq

/-- `calculate_atmospheric_entry(...)`: run `entrySim`, then the
post-processing of the source: `impact_velocity = v/1000` if the ground
was reached (`h ≤ 0`) else `0`; invert the horizontal-distance series;
`fragmented = len(trajectory) < 100 and h > 0`;
`airburst_altitude = h/1000` if `h > 0` else `0`. -/
def calculate_atmospheric_entry (F : RealFuns α)
    (initial_velocity_km_s entry_angle_deg asteroid_diameter_m
      asteroid_density_kg_m3 entry_altitude_km start_altitude_km : α) :
    EntryResult α :=
  let s := entrySim F initial_velocity_km_s entry_angle_deg
      asteroid_diameter_m asteroid_density_kg_m3 entry_altitude_km
      start_altitude_km
  let impact_velocity_km_s := if s.h ≤ 0 then s.v / 1000 else 0
  let impact_distance_km := s.x / 1000
  let max_horizontal_dist := impact_distance_km
  let trajectory := s.pts.map fun pt =>
    { pt with horizontal_distance_km :=
        max_horizontal_dist - pt.horizontal_distance_km }
  { trajectory := trajectory
    impact_velocity_km_s := impact_velocity_km_s
    impact_distance_km := impact_distance_km
    entry_angle_deg := entry_angle_deg
    fragmented := decide (trajectory.length < 100 ∧ s.h > 0)
    airburst_altitude_km := if s.h > 0 then s.h / 1000 else 0 }

/-! ## `orbital_mechanics.py`: trajectory visualization -/

/-- One element of the list `generate_trajectory_visualization` returns.
The `trajectory_metadata` dict attached to the first point and the
`collision_point` bookkeeping feed only that metadata and are not
modelled (no claim touches them). -/
structure VizPoint (α : Type) where
  x : α
  y : α
  z : α
  index : ℕ
  mean_anomaly_deg : α
  distance_from_sun_au : α
  is_collision_zone : Bool
deriving DecidableEq

/-- `collision_threshold_au = earth_radius_au + 100 km in AU` of
`generate_trajectory_visualization`. -/
def collision_threshold_au : α := EARTH_RADIUS / AU_TO_KM + 100 / AU_TO_KM

/-- The point the loop body of `generate_trajectory_visualization`
appends at index `i`: mean anomaly `(360 i / total) % 360`, position via
`keplerian_to_cartesian` converted to AU, and
`is_collision_zone = (|distance_from_sun - 1| < threshold)` when
`check_collision`, else `False`. -/
def vizPoint (F : RealFuns α) (el : OrbElems α) (total i : ℕ)
    (check_collision : Bool) : VizPoint α :=
  let mean_anomaly := pymod (360 * (i : α) / (total : α)) 360
  let elements := { el with mean_anomaly_deg := mean_anomaly }
  let pv := keplerian_to_cartesian F elements
  let pos_au := Vec3.sdiv pv.1 AU_TO_KM
  let distance_from_sun := F.sqrt (Vec3.sqNorm pos_au)
  let radial_distance_from_earth_orbit := |distance_from_sun - 1|
  ⟨pos_au.x, pos_au.y, pos_au.z, i, mean_anomaly, distance_from_sun,
    if check_collision then
      decide (radial_distance_from_earth_orbit < collision_threshold_au)
    else false⟩

/-- Whether the iteration at index `i` sets `collision_detected`: the
radial gate and then the 3-D distance to the fixed Earth estimate
`(1, 0, 0)` AU, both against `collision_threshold_au`. -/
def vizCollides (F : RealFuns α) (el : OrbElems α) (total i : ℕ) : Bool :=
  let mean_anomaly := pymod (360 * (i : α) / (total : α)) 360
  let elements := { el with mean_anomaly_deg := mean_anomaly }
  let pv := keplerian_to_cartesian F elements
  let pos_au := Vec3.sdiv pv.1 AU_TO_KM
  let distance_from_sun := F.sqrt (Vec3.sqNorm pos_au)
  let radial_distance_from_earth_orbit := |distance_from_sun - 1|
  decide (radial_distance_from_earth_orbit < collision_threshold_au) &&
    (let earth_pos_estimate : Vec3 α := ⟨1, 0, 0⟩
     let distance_to_earth_estimate :=
       F.sqrt (Vec3.sqNorm (Vec3.sub pos_au earth_pos_estimate))
     decide (distance_to_earth_estimate < collision_threshold_au))

/-- The `for i in range(total_points)` loop of
`generate_trajectory_visualization`: append the point, update the
persistent `collision_detected` flag, and break right after appending
when it is set and `check_collision` holds. -/
def vizGo (F : RealFuns α) (el : OrbElems α) (total : ℕ)
    (check_collision : Bool) : ℕ → ℕ → Bool → List (VizPoint α)
  | 0, _, _ => []
  | fuel + 1, i, detected =>
    let pt := vizPoint F el total i check_collision
    let detected2 := detected || (check_collision && vizCollides F el total i)
    pt ::
      (if detected2 && check_collision then []
       else vizGo F el total check_collision fuel (i + 1) detected2)

/-- `generate_trajectory_visualization(orbital_elements, num_points,
check_collision, full_orbit)`:
`total_points = max(360, num_points)` when `full_orbit` else
`num_points`, then the loop. -/
def generate_trajectory_visualization (F : RealFuns α) (el : OrbElems α)
    (num_points : ℕ) (check_collision full_orbit : Bool) :
    List (VizPoint α) :=
  let total_points := if full_orbit then max 360 num_points else num_points
  vizGo F el total_points check_collision total_points 0 false

/-! ## `orbital_mechanics.py`: impact location and full scenario -/

/-- The dictionary `calculate_impact_location` returns (its
`impact_point` entry, the pair `[longitude, latitude]` again, is not
repeated here). -/
structure ImpactLocation (α : Type) where
  latitude : α
  longitude : α
  impact_angle_deg : α
  azimuth_deg : α
deriving DecidableEq

/-- `calculate_impact_location(velocity_vector, impact_angle_deg,
target_lat, target_lon)`: the target location when both are supplied,
otherwise latitude/longitude from the normalized velocity direction. -/
def calculate_impact_location (F : RealFuns α) (velocity_vector : Vec3 α)
    (impact_angle_deg : α) (target_lat target_lon : Option α) :
    ImpactLocation α :=
  let ll : α × α :=
    match target_lat, target_lon with
    | some la, some lo => (la, lo)
    | _, _ =>
      let n := F.sqrt (Vec3.sqNorm velocity_vector)
      let v_norm := Vec3.sdiv velocity_vector n
      (degreesF F (F.asin v_norm.z), degreesF F (F.atan2 v_norm.y v_norm.x))
  { latitude := ll.1
    longitude := ll.2
    impact_angle_deg := impact_angle_deg
    azimuth_deg := calculate_azimuth F velocity_vector }

/-- The caller-supplied kinematic parameters (the `asteroid_params` dict
with all four keys present). -/
structure AsteroidParams (α : Type) where
  velocity : α
  diameter : α
  density : α
  angle : α

/-- The dictionary `calculate_impact_scenario` returns (minus the echoed
`asteroid_params`). -/
structure ScenarioResult (α : Type) where
  impact_location : ImpactLocation α
  atmospheric_entry : EntryResult α
  orbital_trajectory : Option (List (VizPoint α))
  orbital_intercept : Option (Intercept α)
  effective_entry_velocity_km_s : α
  effective_entry_angle_deg : α

/-- `calculate_impact_scenario(asteroid_params, orbital_elements,
target_location)`.  The `random.uniform(-60, 60)` /
`random.uniform(-180, 180)` fallback pair drawn from Python's unseeded
global generator when neither an intercept nor a target supplies a
location is modelled by the explicit argument `rand_point`. -/
def calculate_impact_scenario (F : RealFuns α) (astP : AsteroidParams α)
    (orbital_elements : Option (OrbElems α))
    (target_location : Option (α × α)) (rand_point : α × α) :
    ScenarioResult α :=
  let base_velocity_km_s := astP.velocity
  let diameter_m := astP.diameter
  let density := astP.density
  let base_angle := astP.angle
  let intercept := orbital_elements.bind fun el => find_earth_intercept F el
  let effective_velocity :=
    match intercept with
    | some it => it.entry_velocity_km_s
    | none => base_velocity_km_s
  let effective_angle :=
    match intercept with
    | some it => it.entry_angle_deg
    | none => base_angle
  let impact_vector : Vec3 α :=
    match intercept with
    | some it => it.relative_velocity_vector
    | none => ⟨base_velocity_km_s, 0, 0⟩
  let latlon : Option (α × α) :=
    match intercept with
    | some it => some (it.latitude, it.longitude)
    | none => target_location
  let impact_lat := (latlon.getD rand_point).1
  let impact_lon := (latlon.getD rand_point).2
  let impact_azimuth :=
    match intercept with
    | some it => it.azimuth_deg
    | none => calculate_azimuth F impact_vector
  let loc0 := calculate_impact_location F impact_vector effective_angle
      (some impact_lat) (some impact_lon)
  let impact_location :=
    { loc0 with
        impact_angle_deg := effective_angle
        azimuth_deg := impact_azimuth }
  let entry_data := calculate_atmospheric_entry F effective_velocity
      effective_angle diameter_m density 100 10000
  let orbital_trajectory := orbital_elements.map fun el =>
    generate_trajectory_visualization F el 50 true true
  { impact_location := impact_location
    atmospheric_entry := entry_data
    orbital_trajectory := orbital_trajectory
    orbital_intercept := intercept
    effective_entry_velocity_km_s := effective_velocity
    effective_entry_angle_deg := effective_angle }

/-! ## `impact_physics.py`: `compute_impact_effects` -/

/-- Python float `**` with a fractional exponent: `0.0 ** negative`
raises `ZeroDivisionError`; a negative base with a fractional exponent
yields a complex number, outside this real-valued model and likewise
reported as an error; a non-negative base delegates to the abstract
bundle field `F.powr`. -/
def pypow (F : RealFuns α) (x y : α) : Except String α :=
  if x = 0 ∧ y < 0 then .error "0.0 cannot be raised to a negative power"
  else if x < 0 then .error "complex power result (not modelled)"
  else .ok (F.powr x y)

/-- The dictionary `compute_impact_effects` returns (minus the constant
`calculation_method` string, which only reports the CPU/GPU backend). -/
structure ImpactEffects (α : Type) where
  crater_diameter : α
  crater_depth : α
  kinetic_energy_joules : α
  energy_mt_tnt : α
  thermal_radius_km : α
  overpressure_radius_km : α
  seismic_magnitude : α
  seismic_energy_ergs : α
  mass_kg : α

/-- `EnhancedPhysicsEngine.compute_impact_effects({diameter, velocity,
density, angle})`.  `math.log10` and `math.sqrt` sit under the source's
own `> 0` guards and are modelled by the total bundle fields; float `**`
is modelled by `pypow`, and the division producing `pi_2` raises on a
zero denominator as in Python. -/
def compute_impact_effects (F : RealFuns α)
    (diameter velocity density angle : α) :
    Except String (ImpactEffects α) := do
  let velocity_ms := velocity * 1000
  let angle_rad := radiansF F angle
  let radius := diameter / 2
  let volume := 4 / 3 * F.pi * radius ^ 3
  let mass := density * volume
  let kinetic_energy := 0.5 * mass * velocity_ms ^ 2
  let target_density : α := 2500
  let gravity : α := 9.81
  let K : α := 1.88
  let alpha : α := 0.22
  if velocity_ms ^ 2 = 0 then throw "float division by zero"
  let pi_2 := gravity * radius * F.sin angle_rad / velocity_ms ^ 2
  let p2pow ← pypow F pi_2 (-alpha)
  let pi_R := K * p2pow
  let dpow ← pypow F (density / target_density) (1 / 3)
  let crater_radius := pi_R * radius * dpow
  let crater_diameter := 2 * crater_radius
  let crater_depth := crater_diameter * 0.1
  let energy_mt_tnt := kinetic_energy / 4.184e15
  let energy_ergs := kinetic_energy * 1e7
  let seismic_magnitude :=
    if energy_ergs > 0 then
      max 0 (min (2 / 3 * F.log10 energy_ergs - 10.7) 12)
    else 0
  let thermal_energy := 0.3 * kinetic_energy
  let thermal_flux_threshold : α := 6300
  let thermal_radius_km :=
    if thermal_energy > 0 then
      F.sqrt (thermal_energy / (4 * F.pi * thermal_flux_threshold)) / 1000
    else 0
  let overpressure_radius_km ←
    if energy_mt_tnt > 0 then do
      let c ← pypow F energy_mt_tnt (1 / 3)
      pure (2.15 * c)
    else pure 0
  pure
    { crater_diameter := crater_diameter
      crater_depth := crater_depth
      kinetic_energy_joules := kinetic_energy
      energy_mt_tnt := energy_mt_tnt
      thermal_radius_km := thermal_radius_km
      overpressure_radius_km := overpressure_radius_km
      seismic_magnitude := seismic_magnitude
      seismic_energy_ergs := energy_ergs
      mass_kg := mass }

/-! ## `gpu_accelerated.py`: `monte_carlo_impact_map` -/

/-- One row drawn from the multivariate normal, the six values in the
order of `required_labels = [a, e, i, om, w, ma]`. -/
structure Sample6 (α : Type) where
  a : α
  e : α
  i : α
  om : α
  w : α
  ma : α

/-- The `sampled_elements` dict built from one draw: semi-major axis
floored at `0.1`, eccentricity clamped to `[0, 0.999]`, inclination
`% 180`, the other angles `% 360`. -/
def clampSample (s : Sample6 α) : OrbElems α :=
  { semi_major_axis_au := max s.a 0.1
    eccentricity := min (max s.e 0) 0.999
    inclination_deg := pymod s.i 180
    longitude_ascending_node_deg := pymod s.om 360
    argument_periapsis_deg := pymod s.w 360
    mean_anomaly_deg := pymod s.ma 360 }

/-- `bin_counts[key] = bin_counts.get(key, 0) + 1` on an
insertion-ordered association list (a Python dict). -/
def bumpBin : List ((ℤ × ℤ) × ℕ) → ℤ × ℤ → List ((ℤ × ℤ) × ℕ)
  | [], key => [(key, 1)]
  | (k0, c) :: rest, key =>
    if k0 = key then (k0, c + 1) :: rest else (k0, c) :: bumpBin rest key

/-- The mutable state of the sampling loop: the insertion-ordered bin
counts and the list of valid impact locations. -/
structure MCAcc (α : Type) where
  bins : List ((ℤ × ℤ) × ℕ)
  locs : List (α × α)

/-- One iteration of the `for sample in samples_matrix` loop: clamp the
draw, run `calculate_impact_scenario`, discard the sample when there is
no intercept (the `if not intercept: continue`) or the location reads as
NaN, otherwise record the location and bump its bin.  The
`if not impact_location: continue` of the source never fires (the
location dict is always non-empty) and has no counterpart here. -/
def mcConsume (F : RealFuns α) (bin_size_deg : α) (acc : MCAcc α)
    (scen : ScenarioResult α) : MCAcc α :=
  match scen.orbital_intercept with
  | none => acc
  | some _ =>
    let lat := scen.impact_location.latitude
    let lon := scen.impact_location.longitude
    if F.isnan lat || F.isnan lon then acc
    else
      let lat_bin := ⌊(lat + 90) / bin_size_deg⌋
      let lon_bin := ⌊(lon + 180) / bin_size_deg⌋
      ⟨bumpBin acc.bins (lat_bin, lon_bin), acc.locs ++ [(lat, lon)]⟩

def mcStep (F : RealFuns α) (astP : AsteroidParams α) (bin_size_deg : α)
    (acc : MCAcc α) (sample : Sample6 α) (rand_point : α × α) : MCAcc α :=
  mcConsume F bin_size_deg acc
    (calculate_impact_scenario F astP (some (clampSample sample)) none
      rand_point)

/-- The sampling loop, threading the index `k` that selects this
sample's fallback random point. -/
def mcLoop (F : RealFuns α) (astP : AsteroidParams α) (bin_size_deg : α)
    (rand : ℕ → α × α) : List (Sample6 α) → ℕ → MCAcc α → MCAcc α
  | [], _, acc => acc
  | s :: rest, k, acc =>
    mcLoop F astP bin_size_deg rand rest (k + 1)
      (mcStep F astP bin_size_deg acc s (rand k))

/-- One entry of the returned `heatmap` list. -/
structure HeatBin (α : Type) where
  lat_center_deg : α
  lon_center_deg : α
  count : ℕ
  probability : α

/-- Building one heatmap entry from a bin:
`probability = count / valid_samples if valid_samples else 0.0`. -/
def binToHeat (bin_size_deg : α) (valid : ℕ) : (ℤ × ℤ) × ℕ → HeatBin α
  | ((lat_bin, lon_bin), count) =>
    { lat_center_deg := -90 + ((lat_bin : α) + 0.5) * bin_size_deg
      lon_center_deg := -180 + ((lon_bin : α) + 0.5) * bin_size_deg
      count := count
      probability := if valid ≠ 0 then (count : α) / (valid : α) else 0 }

/-- The result dictionary of `monte_carlo_impact_map` (minus the timing
and constant `method` entries).  `invalid_samples` is the Python integer
`samples - valid_samples`; the two means are present exactly when at
least one sample was valid. -/
structure MCResult (α : Type) where
  total_samples : ℕ
  valid_samples : ℕ
  invalid_samples : ℤ
  bin_size_deg : α
  heatmap : List (HeatBin α)
  mean_latitude : Option α
  mean_longitude : Option α

/-- The covariance input: `covariance.get("matrix")` is either a flat
list (`ndim == 1`, reshaped to square) or a nested square list
(`ndim == 2`). -/
inductive CovMatrixRaw (α : Type) where
  | flat (xs : List α)
  | grid (rows : List (List α))

/-- The `covariance` dict: the ordered label list and the optional raw
matrix. -/
structure Covariance (α : Type) where
  labels : List String
  matrix : Option (CovMatrixRaw α)

/-- Every raise in `monte_carlo_impact_map` happens while validating the
covariance input (the spec's `CovarianceError` taxon); the message keeps
the paths apart. -/
inductive MCError where
  | covariance (msg : String)
deriving DecidableEq

def required_labels : List String := ["a", "e", "i", "om", "w", "ma"]

/-- `label_to_index = {label: idx for idx, label in enumerate(labels)}`:
a later duplicate label overwrites an earlier one, so lookup returns the
last index. -/
def lookupLastIdx (labels : List String) (l : String) : Option ℕ :=
  ((labels.enum.filter fun p => p.2 = l).getLast?).map fun p => p.1

/-- One entry of a nested-list matrix; `none` models numpy's
`IndexError`. -/
def matEntry (rows : List (List α)) (r c : ℕ) : Option α :=
  (rows.get? r).bind fun row => row.get? c

/-- `matrix_np[np.ix_(indices, indices)]`. -/
def subMatrix (rows : List (List α)) (idx : List ℕ) :
    Option (List (List α)) :=
  idx.mapM fun r => idx.mapM fun c => matEntry rows r c

/-- `cov_submatrix + np.eye(n) * 1e-10`. -/
def addDiagJitter (rows : List (List α)) : List (List α) :=
  rows.enum.map fun rrow =>
    rrow.2.enum.map fun cv => if rrow.1 = cv.1 then cv.2 + 1e-10 else cv.2

/-- The covariance-validation prefix of `monte_carlo_impact_map`
(everything before `rng.multivariate_normal` draws the samples): the
falsy-matrix test, the reshape of a flat matrix (side length
`int(sqrt(size))`), the required-label check, the 6×6 submatrix
extraction, and the Cholesky positive-semi-definiteness test with one
diagonal-jitter retry.  `np.linalg.cholesky` success is abstracted by
the predicate `cholesky_ok`. -/
def covValidate (cholesky_ok : List (List α) → Bool) (cov : Covariance α) :
    Except MCError (List (List α)) := do
  let matrix_np : List (List α) ←
    match cov.matrix with
    | none => throw (.covariance "Covariance matrix data missing")
    | some (.flat xs) =>
      if xs.isEmpty then throw (.covariance "Covariance matrix data missing")
      else
        let size := Nat.sqrt xs.length
        if size * size = xs.length then pure (xs.toChunks size)
        else throw (.covariance "cannot reshape flat covariance matrix")
    | some (.grid rows) =>
      if rows.isEmpty then throw (.covariance "Covariance matrix data missing")
      else pure rows
  if required_labels.all fun l => (lookupLastIdx cov.labels l).isSome then
    let indices := required_labels.map fun l => (lookupLastIdx cov.labels l).getD 0
    let cov_submatrix ←
      match subMatrix matrix_np indices with
      | some m => pure m
      | none => throw (.covariance "covariance label index out of range")
    if cholesky_ok cov_submatrix then pure cov_submatrix
    else
      let jittered := addDiagJitter cov_submatrix
      if cholesky_ok jittered then pure jittered
      else throw (.covariance "Matrix is not positive definite")
  else
    throw (.covariance "Covariance matrix missing required orbital element labels")

/-- `monte_carlo_impact_map(nominal_elements, covariance,
asteroid_params, samples, bin_size_deg, seed)`.  The seeded
`rng.multivariate_normal(mean_vector, cov, size=samples)` is abstracted
by the argument `draw` (a fixed seed fixes `draw`); the unseeded
`random.uniform` fallback inside `calculate_impact_scenario` by `rand`. -/
def monte_carlo_impact_map (F : RealFuns α)
    (cholesky_ok : List (List α) → Bool)
    (draw : Sample6 α → List (List α) → ℕ → List (Sample6 α))
    (rand : ℕ → α × α) (nominal_elements : OrbElems α)
    (cov : Covariance α) (asteroid_params : AsteroidParams α)
    (samples : ℕ) (bin_size_deg : α) : Except MCError (MCResult α) := do
  let cov_final ← covValidate cholesky_ok cov
  let mean_vector : Sample6 α :=
    ⟨nominal_elements.semi_major_axis_au, nominal_elements.eccentricity,
      nominal_elements.inclination_deg,
      nominal_elements.longitude_ascending_node_deg,
      nominal_elements.argument_periapsis_deg,
      nominal_elements.mean_anomaly_deg⟩
  let samples_matrix := draw mean_vector cov_final samples
  let acc := mcLoop F asteroid_params bin_size_deg rand samples_matrix 0 ⟨[], []⟩
  let valid_samples := acc.locs.length
  let heatmap := acc.bins.map (binToHeat bin_size_deg valid_samples)
  pure
    { total_samples := samples
      valid_samples := valid_samples
      invalid_samples := (samples : ℤ) - (valid_samples : ℤ)
      bin_size_deg := bin_size_deg
      heatmap := heatmap
      mean_latitude :=
        if acc.locs.isEmpty then none
        else some ((acc.locs.map fun p => p.1).sum / (acc.locs.length : α))
      mean_longitude :=
        if acc.locs.isEmpty then none
        else some ((acc.locs.map fun p => p.2).sum / (acc.locs.length : α)) }

/-! ## Observation helpers used only by the statements and proofs -/

/-- Total of the per-bin counts of the loop's accumulator. -/
def sumCounts (bins : List ((ℤ × ℤ) × ℕ)) : ℕ :=
  (bins.map fun p => p.2).sum

/-- Total of the `count` fields of the returned heatmap. -/
def heatCounts (hm : List (HeatBin α)) : ℕ :=
  (hm.map fun b => b.count).sum

/-- A fully inert rational instantiation of the function bundle, used to
evaluate the embedding at concrete inputs. -/
def trivFuns : RealFuns ℚ :=
  ⟨fun _ => 0, fun _ => 0, fun _ => 0, fun _ => 0, fun _ => 0,
    fun _ _ => 0, fun _ => 0, fun _ _ => 0, 0, fun _ => false⟩

/-! ## Lemmas about the sampling loop -/

lemma sumCounts_cons (p : (ℤ × ℤ) × ℕ) (l : List ((ℤ × ℤ) × ℕ)) :
    sumCounts (p :: l) = p.2 + sumCounts l := by
  simp [sumCounts]

lemma sumCounts_bumpBin (bins : List ((ℤ × ℤ) × ℕ)) (key : ℤ × ℤ) :
    sumCounts (bumpBin bins key) = sumCounts bins + 1 := by
  induction bins with
  | nil => simp [bumpBin, sumCounts]
  | cons p rest ih =>
    obtain ⟨k0, c⟩ := p
    by_cases h : k0 = key
    · rw [show bumpBin ((k0, c) :: rest) key = (k0, c + 1) :: rest from by
        simp [bumpBin, h]]
      rw [sumCounts_cons, sumCounts_cons]
      omega
    · rw [show bumpBin ((k0, c) :: rest) key = (k0, c) :: bumpBin rest key
          from by simp [bumpBin, h]]
      rw [sumCounts_cons, sumCounts_cons, ih]
      omega

lemma counts_pos_bumpBin (bins : List ((ℤ × ℤ) × ℕ)) (key : ℤ × ℤ)
    (hpos : ∀ p ∈ bins, 1 ≤ p.2) :
    ∀ p ∈ bumpBin bins key, 1 ≤ p.2 := by
  induction bins with
  | nil =>
    intro p hp
    simp only [bumpBin, List.mem_singleton] at hp
    rw [hp]
  | cons q rest ih =>
    obtain ⟨k0, c⟩ := q
    intro p hp
    by_cases h : k0 = key
    · simp only [bumpBin, if_pos h] at hp
      rcases List.mem_cons.mp hp with h1 | h1
      · rw [h1]
        exact Nat.le_add_left 1 c
      · exact hpos p (List.mem_cons_of_mem _ h1)
    · simp only [bumpBin, if_neg h] at hp
      rcases List.mem_cons.mp hp with h1 | h1
      · subst h1
        exact hpos ⟨k0, c⟩ (List.mem_cons_self _ _)
      · exact ih (fun r hr => hpos r (List.mem_cons_of_mem _ hr)) p h1

/-- Each loop iteration either leaves the accumulator unchanged or
appends exactly one location and bumps exactly one bin. -/
lemma mcConsume_cases (F : RealFuns α) (bin_size_deg : α) (acc : MCAcc α)
    (scen : ScenarioResult α) :
    mcConsume F bin_size_deg acc scen = acc ∨
      ∃ key lat lon,
        mcConsume F bin_size_deg acc scen =
          ⟨bumpBin acc.bins key, acc.locs ++ [(lat, lon)]⟩ := by
  unfold mcConsume
  cases hit : scen.orbital_intercept with
  | none => left; rfl
  | some it =>
    by_cases hnan :
        (F.isnan scen.impact_location.latitude ||
          F.isnan scen.impact_location.longitude) = true
    · left
      simp [hnan]
    · right
      simp only [Bool.not_eq_true] at hnan
      refine ⟨(⌊(scen.impact_location.latitude + 90) / bin_size_deg⌋,
          ⌊(scen.impact_location.longitude + 180) / bin_size_deg⌋),
        scen.impact_location.latitude, scen.impact_location.longitude, ?_⟩
      simp [hnan]

lemma mcStep_cases (F : RealFuns α) (astP : AsteroidParams α)
    (bin_size_deg : α) (acc : MCAcc α) (s : Sample6 α) (r : α × α) :
    mcStep F astP bin_size_deg acc s r = acc ∨
      ∃ key lat lon,
        mcStep F astP bin_size_deg acc s r =
          ⟨bumpBin acc.bins key, acc.locs ++ [(lat, lon)]⟩ :=
  mcConsume_cases F bin_size_deg acc _

lemma mcStep_invariant (F : RealFuns α) (astP : AsteroidParams α)
    (bin_size_deg : α) (acc : MCAcc α) (s : Sample6 α) (r : α × α)
    (hsum : sumCounts acc.bins = acc.locs.length)
    (hpos : ∀ p ∈ acc.bins, 1 ≤ p.2) :
    sumCounts (mcStep F astP bin_size_deg acc s r).bins =
        (mcStep F astP bin_size_deg acc s r).locs.length ∧
      ∀ p ∈ (mcStep F astP bin_size_deg acc s r).bins, 1 ≤ p.2 := by
  rcases mcStep_cases F astP bin_size_deg acc s r with h | ⟨key, lat, lon, h⟩
  · rw [h]; exact ⟨hsum, hpos⟩
  · rw [h]
    constructor
    · simp [sumCounts_bumpBin, hsum]
    · exact counts_pos_bumpBin _ _ hpos

lemma mcLoop_invariant (F : RealFuns α) (astP : AsteroidParams α)
    (bin_size_deg : α) (rand : ℕ → α × α) (l : List (Sample6 α)) :
    ∀ (k : ℕ) (acc : MCAcc α),
      sumCounts acc.bins = acc.locs.length →
      (∀ p ∈ acc.bins, 1 ≤ p.2) →
      sumCounts (mcLoop F astP bin_size_deg rand l k acc).bins =
          (mcLoop F astP bin_size_deg rand l k acc).locs.length ∧
        ∀ p ∈ (mcLoop F astP bin_size_deg rand l k acc).bins, 1 ≤ p.2 := by
  induction l with
  | nil => intro k acc hsum hpos; exact ⟨hsum, hpos⟩
  | cons s rest ih =>
    intro k acc hsum hpos
    have step := mcStep_invariant F astP bin_size_deg acc s (rand k) hsum hpos
    exact ih (k + 1) _ step.1 step.2

lemma heatCounts_map (bin_size_deg : α) (valid : ℕ)
    (bins : List ((ℤ × ℤ) × ℕ)) :
    heatCounts (bins.map (binToHeat bin_size_deg valid)) = sumCounts bins := by
  induction bins with
  | nil => rfl
  | cons p rest ih =>
    obtain ⟨⟨a, b⟩, c⟩ := p
    simp only [heatCounts, sumCounts, List.map_cons, List.sum_cons,
      binToHeat] at ih ⊢
    omega

lemma sumCounts_eq_zero (bins : List ((ℤ × ℤ) × ℕ))
    (hpos : ∀ p ∈ bins, 1 ≤ p.2) (h : sumCounts bins = 0) : bins = [] := by
  cases bins with
  | nil => rfl
  | cons p rest =>
    have h1 := hpos p (List.mem_cons_self _ _)
    rw [sumCounts_cons] at h
    omega

lemma map_div_sum (l : List ℕ) (v : α) :
    (List.map (fun c : ℕ => (c : α) / v) l).sum = ((l.sum : ℕ) : α) / v := by
  induction l with
  | nil => simp
  | cons a rest ih =>
    simp only [List.map_cons, List.sum_cons, ih, Nat.cast_add]
    rw [add_div]

/-- C1.  For every call to `monte_carlo_impact_map` that returns a
result, `valid_samples + invalid_samples = total_samples` (the requested
sample count), and the counts of the returned heatmap bins sum to
`valid_samples`. -/
theorem C1_monte_carlo_sample_accounting (F : RealFuns α)
    (cholesky_ok : List (List α) → Bool)
    (draw : Sample6 α → List (List α) → ℕ → List (Sample6 α))
    (rand : ℕ → α × α) (nom : OrbElems α) (cov : Covariance α)
    (astP : AsteroidParams α) (samples : ℕ) (bin_size_deg : α) :
    match monte_carlo_impact_map F cholesky_ok draw rand nom cov astP
        samples bin_size_deg with
    | .ok r =>
        r.total_samples = samples ∧
        (r.valid_samples : ℤ) + r.invalid_samples = (samples : ℤ) ∧
        heatCounts r.heatmap = r.valid_samples
    | .error _ => True := by
  cases hcv : covValidate cholesky_ok cov with
  | error e =>
    simp [monte_carlo_impact_map, hcv, Except.bind]
  | ok c =>
    have hinv := mcLoop_invariant F astP bin_size_deg rand
      (draw ⟨nom.semi_major_axis_au, nom.eccentricity, nom.inclination_deg,
        nom.longitude_ascending_node_deg, nom.argument_periapsis_deg,
        nom.mean_anomaly_deg⟩ c samples) 0 ⟨[], []⟩ rfl
      (by intro p hp; simp [MCAcc.mk] at hp)
    simp only [monte_carlo_impact_map, hcv, Except.bind, bind, pure,
      Except.pure]
    refine ⟨?_, ?_, ?_⟩
    · trivial
    · ring
    · rw [heatCounts_map]
      exact hinv.1

lemma heat_prob_mem (bs : α) (valid : ℕ) (hvalid : valid ≠ 0)
    (bins : List ((ℤ × ℤ) × ℕ)) :
    ∀ b ∈ bins.map (binToHeat bs valid),
      b.probability = (b.count : α) / (valid : α) := by
  intro b hb
  rcases List.mem_map.mp hb with ⟨p, hp, rfl⟩
  obtain ⟨⟨i, j⟩, cval⟩ := p
  simp [binToHeat, hvalid]

lemma heat_prob_sum (bs : α) (valid : ℕ) (hvalid : valid ≠ 0)
    (bins : List ((ℤ × ℤ) × ℕ)) (hsum : sumCounts bins = valid) :
    ((bins.map (binToHeat bs valid)).map fun b => b.probability).sum = 1 := by
  rw [List.map_map]
  rw [show ((fun b : HeatBin α => b.probability) ∘ binToHeat bs valid) =
      fun p : (ℤ × ℤ) × ℕ => (p.2 : α) / (valid : α) from by
    funext p
    obtain ⟨⟨i, j⟩, c⟩ := p
    simp [binToHeat, hvalid]]
  rw [show (bins.map fun p : (ℤ × ℤ) × ℕ => (p.2 : α) / (valid : α)) =
      List.map (fun c : ℕ => (c : α) / (valid : α))
        (bins.map fun p => p.2) from by rw [List.map_map]; rfl]
  rw [map_div_sum]
  simp only [sumCounts] at hsum
  rw [hsum]
  exact div_self (Nat.cast_ne_zero.mpr hvalid)

/-- C10.  For every call to `monte_carlo_impact_map` that returns a
result with `valid_samples > 0`, each bin's probability is its count
divided by `valid_samples` and the probabilities sum to exactly 1; when
`valid_samples = 0` the heatmap is empty. -/
theorem C10_heatmap_probability_normalization (F : RealFuns α)
    (cholesky_ok : List (List α) → Bool)
    (draw : Sample6 α → List (List α) → ℕ → List (Sample6 α))
    (rand : ℕ → α × α) (nom : OrbElems α) (cov : Covariance α)
    (astP : AsteroidParams α) (samples : ℕ) (bin_size_deg : α) :
    match monte_carlo_impact_map F cholesky_ok draw rand nom cov astP
        samples bin_size_deg with
    | .ok r =>
        (r.valid_samples ≠ 0 →
          (∀ b ∈ r.heatmap,
            b.probability = (b.count : α) / (r.valid_samples : α)) ∧
          (r.heatmap.map fun b => b.probability).sum = 1) ∧
        (r.valid_samples = 0 → r.heatmap = [])
    | .error _ => True := by
  cases hcv : covValidate cholesky_ok cov with
  | error e =>
    simp [monte_carlo_impact_map, hcv, Except.bind]
  | ok c =>
    have hinv := mcLoop_invariant F astP bin_size_deg rand
      (draw ⟨nom.semi_major_axis_au, nom.eccentricity, nom.inclination_deg,
        nom.longitude_ascending_node_deg, nom.argument_periapsis_deg,
        nom.mean_anomaly_deg⟩ c samples) 0 ⟨[], []⟩ rfl
      (by intro p hp; simp [MCAcc.mk] at hp)
    simp only [monte_carlo_impact_map, hcv, Except.bind, bind, pure,
      Except.pure]
    constructor
    · intro hvalid
      exact ⟨heat_prob_mem bin_size_deg _ hvalid _,
        heat_prob_sum bin_size_deg _ hvalid _ hinv.1⟩
    · intro hvalid
      rw [sumCounts_eq_zero _ hinv.2 (by rw [hinv.1]; exact hvalid)]
      rfl

/-- The `ok` branch of `monte_carlo_impact_map` is reachable: with a
6×6 covariance labelled by the required labels, validation succeeds and
an empty draw yields a result with no valid samples and an empty
heatmap. -/
theorem monte_carlo_ok_reachable :
    monte_carlo_impact_map trivFuns (fun _ => true) (fun _ _ _ => [])
        (fun _ => ((0 : ℚ), 0)) ⟨1, 0, 0, 0, 0, 0⟩
        ⟨required_labels,
          some (.grid (List.replicate 6 (List.replicate 6 0)))⟩
        ⟨20, 100, 2500, 45⟩ 1 10 =
      .ok ⟨1, 0, 1, 10, [], none, none⟩ := by
  rfl

/-! ## Lemmas for the fallback-randomness independence (C2) -/

set_option maxRecDepth 4000 in
lemma scenario_intercept_eq (F : RealFuns α) (astP : AsteroidParams α)
    (el : OrbElems α) (tl : Option (α × α)) (r : α × α) :
    (calculate_impact_scenario F astP (some el) tl r).orbital_intercept =
      find_earth_intercept F el := rfl

lemma scenario_location_of_intercept (F : RealFuns α)
    (astP : AsteroidParams α) (el : OrbElems α) (r : α × α)
    (it : Intercept α) (h : find_earth_intercept F el = some it) :
    (calculate_impact_scenario F astP (some el) none r).impact_location =
      ⟨it.latitude, it.longitude, it.entry_angle_deg, it.azimuth_deg⟩ := by
  simp [calculate_impact_scenario, calculate_impact_location, h]

lemma mcConsume_of_none (F : RealFuns α) (bs : α) (acc : MCAcc α)
    (scen : ScenarioResult α) (h : scen.orbital_intercept = none) :
    mcConsume F bs acc scen = acc := by
  simp [mcConsume, h]

lemma mcConsume_of_some (F : RealFuns α) (bs : α) (acc : MCAcc α)
    (scen : ScenarioResult α) (it : Intercept α)
    (h : scen.orbital_intercept = some it) :
    mcConsume F bs acc scen =
      if F.isnan scen.impact_location.latitude ||
          F.isnan scen.impact_location.longitude then acc
      else
        ⟨bumpBin acc.bins
            (⌊(scen.impact_location.latitude + 90) / bs⌋,
              ⌊(scen.impact_location.longitude + 180) / bs⌋),
          acc.locs ++
            [(scen.impact_location.latitude,
              scen.impact_location.longitude)]⟩ := by
  simp [mcConsume, h]

lemma mcStep_rand_irrel (F : RealFuns α) (astP : AsteroidParams α)
    (bs : α) (acc : MCAcc α) (s : Sample6 α) (r1 r2 : α × α) :
    mcStep F astP bs acc s r1 = mcStep F astP bs acc s r2 := by
  unfold mcStep
  cases h : find_earth_intercept F (clampSample s) with
  | none =>
    rw [mcConsume_of_none F bs acc _ (by rw [scenario_intercept_eq, h]),
      mcConsume_of_none F bs acc _ (by rw [scenario_intercept_eq, h])]
  | some it =>
    rw [mcConsume_of_some F bs acc _ it (by rw [scenario_intercept_eq, h]),
      mcConsume_of_some F bs acc _ it (by rw [scenario_intercept_eq, h]),
      scenario_location_of_intercept F astP _ r1 it h,
      scenario_location_of_intercept F astP _ r2 it h]

lemma mcLoop_rand_irrel (F : RealFuns α) (astP : AsteroidParams α)
    (bs : α) (r1 r2 : ℕ → α × α) (l : List (Sample6 α)) :
    ∀ (k1 k2 : ℕ) (acc : MCAcc α),
      mcLoop F astP bs r1 l k1 acc = mcLoop F astP bs r2 l k2 acc := by
  induction l with
  | nil => intro k1 k2 acc; rfl
  | cons s rest ih =>
    intro k1 k2 acc
    show mcLoop F astP bs r1 rest (k1 + 1) (mcStep F astP bs acc s (r1 k1)) =
      mcLoop F astP bs r2 rest (k2 + 1) (mcStep F astP bs acc s (r2 k2))
    rw [mcStep_rand_irrel F astP bs acc s (r1 k1) (r2 k2)]
    exact ih (k1 + 1) (k2 + 1) _

/-- C2.  For a fixed seed and fixed inputs the heatmap is reproducible:
the drawn sample matrix is a function of the seed (the `draw` argument),
and the entire returned result — bins, counts, probabilities, counters
and means — does not depend on the unseeded `random.uniform` fallback
(`rand`) inside `calculate_impact_scenario`, because a sample that takes
that fallback has no intercept and is discarded before its impact
location is read. -/
theorem C2_heatmap_reproducible_rand_independent (F : RealFuns α)
    (cholesky_ok : List (List α) → Bool)
    (draw : Sample6 α → List (List α) → ℕ → List (Sample6 α))
    (rand1 rand2 : ℕ → α × α) (nom : OrbElems α) (cov : Covariance α)
    (astP : AsteroidParams α) (samples : ℕ) (bin_size_deg : α) :
    monte_carlo_impact_map F cholesky_ok draw rand1 nom cov astP samples
        bin_size_deg =
      monte_carlo_impact_map F cholesky_ok draw rand2 nom cov astP samples
        bin_size_deg := by
  cases hcv : covValidate cholesky_ok cov with
  | error e =>
    simp [monte_carlo_impact_map, hcv, Except.bind]
  | ok c =>
    simp only [monte_carlo_impact_map, hcv, Except.bind, bind, pure,
      Except.pure]
    rw [mcLoop_rand_irrel F astP bin_size_deg rand1 rand2 _ 0 0]

/-! ## Lemmas for the missing-label covariance error (C7) -/

lemma lookupLastIdx_of_not_mem (labels : List String) (l : String)
    (h : l ∉ labels) : lookupLastIdx labels l = none := by
  unfold lookupLastIdx
  have hf : (labels.enum.filter fun p => p.2 = l) = [] := by
    rw [List.filter_eq_nil_iff]
    intro p hp
    have hmem : p.2 ∈ labels := by
      have hg := List.mem_enum_iff_getElem?.mp hp
      exact List.getElem?_mem hg
    simp only [decide_eq_true_eq]
    intro heq
    exact h (heq ▸ hmem)
  rw [hf]
  rfl

/-- With the required label `a` absent, `covValidate` fails with a
covariance error whose message does not depend on the Cholesky test
(every failure path before the label check is also independent of it). -/
lemma covValidate_label_missing (cov : Covariance α)
    (h : "a" ∉ cov.labels) :
    ∃ msg, ∀ chol : List (List α) → Bool,
      covValidate chol cov = .error (.covariance msg) := by
  have hall :
      (required_labels.all fun l =>
        (lookupLastIdx cov.labels l).isSome) = false := by
    simp [required_labels, lookupLastIdx_of_not_mem cov.labels "a" h]
  cases hm : cov.matrix with
  | none =>
    exact ⟨"Covariance matrix data missing", fun chol => by
      simp [covValidate, hm, Except.bind, bind, throw, throwThe, MonadExceptOf.throw]⟩
  | some raw =>
    cases raw with
    | flat xs =>
      by_cases hxs : xs.isEmpty
      · exact ⟨"Covariance matrix data missing", fun chol => by
          simp [covValidate, hm, hxs, Except.bind, bind, throw, throwThe, MonadExceptOf.throw]⟩
      · by_cases hsz : Nat.sqrt xs.length * Nat.sqrt xs.length = xs.length
        · exact
            ⟨"Covariance matrix missing required orbital element labels",
              fun chol => by
                simp [covValidate, hm, hxs, hsz, hall, Except.bind, bind, pure, Except.pure, throw, throwThe, MonadExceptOf.throw]⟩
        · exact ⟨"cannot reshape flat covariance matrix", fun chol => by
            simp [covValidate, hm, hxs, hsz, Except.bind, bind, throw, throwThe, MonadExceptOf.throw]⟩
    | grid rows =>
      by_cases hrows : rows.isEmpty
      · exact ⟨"Covariance matrix data missing", fun chol => by
          simp [covValidate, hm, hrows, Except.bind, bind, throw, throwThe, MonadExceptOf.throw]⟩
      · exact
          ⟨"Covariance matrix missing required orbital element labels",
            fun chol => by
              simp [covValidate, hm, hrows, hall, Except.bind, bind, pure, Except.pure, throw, throwThe, MonadExceptOf.throw]⟩

/-- C7.  A covariance whose labels omit `a` makes
`monte_carlo_impact_map` raise a covariance error, and the outcome does
not depend on the Cholesky test, the sample-drawing function or the
random fallback: the request fails before any sampling, leaving no
partial heatmap. -/
theorem C7_missing_label_covariance_error (F : RealFuns α)
    (cholesky_ok : List (List α) → Bool)
    (draw : Sample6 α → List (List α) → ℕ → List (Sample6 α))
    (rand : ℕ → α × α) (nom : OrbElems α) (cov : Covariance α)
    (astP : AsteroidParams α) (samples : ℕ) (bin_size_deg : α)
    (h : "a" ∉ cov.labels) :
    (∃ msg, monte_carlo_impact_map F cholesky_ok draw rand nom cov astP
        samples bin_size_deg = .error (.covariance msg)) ∧
    ∀ (chol2 : List (List α) → Bool)
      (draw2 : Sample6 α → List (List α) → ℕ → List (Sample6 α))
      (rand2 : ℕ → α × α),
      monte_carlo_impact_map F chol2 draw2 rand2 nom cov astP samples
          bin_size_deg =
        monte_carlo_impact_map F cholesky_ok draw rand nom cov astP samples
          bin_size_deg := by
  obtain ⟨msg, hmsg⟩ := covValidate_label_missing cov h
  constructor
  · exact ⟨msg, by
      simp [monte_carlo_impact_map, hmsg cholesky_ok, Except.bind]⟩
  · intro chol2 draw2 rand2
    simp [monte_carlo_impact_map, hmsg cholesky_ok, hmsg chol2, Except.bind]

/-- Witness for C7 at a concrete input: label list `["x"]`, no matrix
data, one requested sample. -/
theorem C7_missing_label_witness :
    "a" ∉ (["x"] : List String) ∧
      ∃ msg,
        monte_carlo_impact_map trivFuns (fun _ => true) (fun _ _ _ => [])
            (fun _ => ((0 : ℚ), 0)) ⟨1, 0, 0, 0, 0, 0⟩ ⟨["x"], none⟩
            ⟨20, 100, 2500, 45⟩ 1 10 = .error (.covariance msg) :=
  ⟨by simp,
    (C7_missing_label_covariance_error trivFuns (fun _ => true)
        (fun _ _ _ => []) (fun _ => ((0 : ℚ), 0)) ⟨1, 0, 0, 0, 0, 0⟩
        ⟨["x"], none⟩ ⟨20, 100, 2500, 45⟩ 1 10 (by simp)).1⟩

/-! ## C3: the returned `fragmented` flag is a length proxy -/

/-- C3 (code bug evidence).  `calculate_atmospheric_entry` computes the
returned `fragmented` field as `len(trajectory) < 100 and h > 0`, not
from the fragmentation `break` itself; in particular a run whose entry
loop halts on the dynamic-pressure break (`frag = true` in `entrySim`)
but whose trajectory already holds at least 100 points is reported with
`fragmented = false`. -/
theorem C3_fragmented_flag_is_length_proxy (F : RealFuns α)
    (v0 ang d rho ea sa : α) :
    (calculate_atmospheric_entry F v0 ang d rho ea sa).fragmented =
      decide ((entrySim F v0 ang d rho ea sa).pts.length < 100 ∧
        (entrySim F v0 ang d rho ea sa).h > 0) ∧
    ((entrySim F v0 ang d rho ea sa).frag = true →
      100 ≤ (entrySim F v0 ang d rho ea sa).pts.length →
      (calculate_atmospheric_entry F v0 ang d rho ea sa).fragmented =
        false) := by
  constructor
  · simp only [calculate_atmospheric_entry, List.length_map]
  · intro hfrag hlen
    simp only [calculate_atmospheric_entry, List.length_map,
      decide_eq_false_iff_not]
    rintro ⟨h1, _⟩
    omega

/-! ## C6: monotonicity of `compute_impact_effects` -/

/-- A rational instantiation with positive `sin` and `pi`, under which
`compute_impact_effects` runs to completion. -/
def posFuns : RealFuns ℚ :=
  ⟨fun _ => 1, fun _ => 1, fun _ => 0, fun _ => 0, fun _ => 0,
    fun _ _ => 0, fun _ => 0, fun _ _ => 1, 3, fun _ => false⟩

set_option maxHeartbeats 1000000 in
/-- On positive inputs with a positive `sin angle` (any angle strictly
between 0° and 180°) the computation succeeds, and its kinetic energy
and TNT equivalent are the closed forms of the source. -/
lemma compute_impact_effects_ok (F : RealFuns α) (d v ρ ang : α)
    (hd : 0 < d) (hv : 0 < v) (hρ : 0 < ρ) (hpi : 0 < F.pi)
    (hsin : 0 < F.sin (radiansF F ang)) :
    ∃ e, compute_impact_effects F d v ρ ang = .ok e ∧
      e.kinetic_energy_joules =
        0.5 * (ρ * (4 / 3 * F.pi * (d / 2) ^ 3)) * (v * 1000) ^ 2 ∧
      e.energy_mt_tnt =
        0.5 * (ρ * (4 / 3 * F.pi * (d / 2) ^ 3)) * (v * 1000) ^ 2 /
          4.184e15 := by
  have hvms : 0 < v * 1000 := by positivity
  have hvms2 : (0 : α) < (v * 1000) ^ 2 := by positivity
  have hpi2 : 0 < (9.81 : α) * (d / 2) * F.sin (radiansF F ang) /
      (v * 1000) ^ 2 := by positivity
  have h1 : pypow F ((9.81 : α) * (d / 2) * F.sin (radiansF F ang) /
      (v * 1000) ^ 2) (-(0.22 : α)) =
      .ok (F.powr ((9.81 : α) * (d / 2) * F.sin (radiansF F ang) /
        (v * 1000) ^ 2) (-(0.22 : α))) := by
    rw [pypow, if_neg (by rintro ⟨h0, _⟩; exact absurd h0 (ne_of_gt hpi2)),
      if_neg (not_lt.mpr (le_of_lt hpi2))]
  have hρr : (0 : α) < ρ / 2500 := by positivity
  have h2 : pypow F (ρ / (2500 : α)) (1 / 3 : α) =
      .ok (F.powr (ρ / (2500 : α)) (1 / 3 : α)) := by
    rw [pypow, if_neg (by rintro ⟨h0, _⟩; exact absurd h0 (ne_of_gt hρr)),
      if_neg (not_lt.mpr (le_of_lt hρr))]
  have hke : (0 : α) <
      0.5 * (ρ * (4 / 3 * F.pi * (d / 2) ^ 3)) * (v * 1000) ^ 2 := by
    positivity
  have hmt : (0 : α) <
      0.5 * (ρ * (4 / 3 * F.pi * (d / 2) ^ 3)) * (v * 1000) ^ 2 /
        4.184e15 := by positivity
  have h3 : pypow F
      (0.5 * (ρ * (4 / 3 * F.pi * (d / 2) ^ 3)) * (v * 1000) ^ 2 /
        4.184e15) (1 / 3 : α) =
      .ok (F.powr
        (0.5 * (ρ * (4 / 3 * F.pi * (d / 2) ^ 3)) * (v * 1000) ^ 2 /
          4.184e15) (1 / 3 : α)) := by
    rw [pypow, if_neg (by rintro ⟨h0, _⟩; exact absurd h0 (ne_of_gt hmt)),
      if_neg (not_lt.mpr (le_of_lt hmt))]
  simp only [compute_impact_effects, if_neg (ne_of_gt hvms2), h1, h2,
    if_pos hmt, h3, Except.bind, bind, pure, Except.pure, throw, throwThe,
    MonadExceptOf.throw]
  exact ⟨_, rfl, rfl, rfl⟩

set_option maxHeartbeats 1000000 in
/-- C6.  Kinetic energy and TNT equivalent of `compute_impact_effects`
are strictly increasing in velocity (holding diameter and all else
fixed) and strictly increasing in diameter (holding velocity and all
else fixed), over positive inputs. -/
theorem C6_energy_strict_monotone (F : RealFuns α) (d1 d2 ρ ang v1 v2 : α)
    (hd1 : 0 < d1) (hd12 : d1 < d2) (hρ : 0 < ρ) (hv1 : 0 < v1)
    (hv12 : v1 < v2) (hpi : 0 < F.pi)
    (hsin : 0 < F.sin (radiansF F ang)) :
    ∃ e11 e12 e21,
      compute_impact_effects F d1 v1 ρ ang = .ok e11 ∧
      compute_impact_effects F d1 v2 ρ ang = .ok e12 ∧
      compute_impact_effects F d2 v1 ρ ang = .ok e21 ∧
      e11.kinetic_energy_joules < e12.kinetic_energy_joules ∧
      e11.energy_mt_tnt < e12.energy_mt_tnt ∧
      e11.kinetic_energy_joules < e21.kinetic_energy_joules ∧
      e11.energy_mt_tnt < e21.energy_mt_tnt := by
  have hd2 : 0 < d2 := lt_trans hd1 hd12
  have hv2 : 0 < v2 := lt_trans hv1 hv12
  obtain ⟨e11, he11, hk11, hm11⟩ :=
    compute_impact_effects_ok F d1 v1 ρ ang hd1 hv1 hρ hpi hsin
  obtain ⟨e12, he12, hk12, hm12⟩ :=
    compute_impact_effects_ok F d1 v2 ρ ang hd1 hv2 hρ hpi hsin
  obtain ⟨e21, he21, hk21, hm21⟩ :=
    compute_impact_effects_ok F d2 v1 ρ ang hd2 hv1 hρ hpi hsin
  have hmass1 : (0 : α) < 0.5 * (ρ * (4 / 3 * F.pi * (d1 / 2) ^ 3)) := by
    positivity
  have hV : (0 : α) < (v1 * 1000) ^ 2 := by positivity
  have hkv : e11.kinetic_energy_joules < e12.kinetic_energy_joules := by
    rw [hk11, hk12]
    have hlt : v1 * 1000 < v2 * 1000 := by linarith
    have h0 : (0 : α) ≤ v1 * 1000 := by positivity
    have hsq : (v1 * 1000) ^ 2 < (v2 * 1000) ^ 2 := by nlinarith [hlt, h0]
    exact mul_lt_mul_of_pos_left hsq hmass1
  have hkd : e11.kinetic_energy_joules < e21.kinetic_energy_joules := by
    rw [hk11, hk21]
    have hhalf : d1 / 2 < d2 / 2 := by linarith
    have h0 : (0 : α) ≤ d1 / 2 := by positivity
    have hcube : (d1 / 2) ^ 3 < (d2 / 2) ^ 3 := by
      nlinarith [hhalf, h0, sq_nonneg (d1 / 2), sq_nonneg (d2 / 2),
        sq_nonneg (d1 / 2 + d2 / 2),
        mul_pos (sub_pos.mpr hhalf) (sub_pos.mpr hhalf)]
    have hAB : 0.5 * (ρ * (4 / 3 * F.pi * (d1 / 2) ^ 3)) <
        0.5 * (ρ * (4 / 3 * F.pi * (d2 / 2) ^ 3)) := by
      apply mul_lt_mul_of_pos_left _ (by norm_num : (0 : α) < 0.5)
      apply mul_lt_mul_of_pos_left _ hρ
      exact mul_lt_mul_of_pos_left hcube (by positivity)
    exact mul_lt_mul_of_pos_right hAB hV
  refine ⟨e11, e12, e21, he11, he12, he21, hkv, ?_, hkd, ?_⟩
  · rw [hm11, hm12]
    exact div_lt_div_of_pos_right (by rw [hk11, hk12] at hkv; exact hkv)
      (by norm_num)
  · rw [hm11, hm21]
    exact div_lt_div_of_pos_right (by rw [hk11, hk21] at hkd; exact hkd)
      (by norm_num)

/-- Witness for C6 at the concrete input `d1 = 1, d2 = 2, ρ = 1,
angle = 45°, v1 = 1, v2 = 2` under `posFuns`. -/
theorem C6_energy_strict_monotone_witness :
    (0 : ℚ) < 1 ∧ (1 : ℚ) < 2 ∧ (0 : ℚ) < 1 ∧ (0 : ℚ) < 1 ∧
      (1 : ℚ) < 2 ∧ 0 < posFuns.pi ∧
      0 < posFuns.sin (radiansF posFuns 45) ∧
      ∃ e11 e12 e21,
        compute_impact_effects posFuns 1 1 1 45 = .ok e11 ∧
        compute_impact_effects posFuns 1 2 1 45 = .ok e12 ∧
        compute_impact_effects posFuns 2 1 1 45 = .ok e21 ∧
        e11.kinetic_energy_joules < e12.kinetic_energy_joules ∧
        e11.energy_mt_tnt < e12.energy_mt_tnt ∧
        e11.kinetic_energy_joules < e21.kinetic_energy_joules ∧
        e11.energy_mt_tnt < e21.energy_mt_tnt :=
  ⟨by norm_num, by norm_num, by norm_num, by norm_num, by norm_num,
    by norm_num [posFuns], by norm_num [posFuns],
    C6_energy_strict_monotone posFuns 1 2 1 45 1 2 (by norm_num)
      (by norm_num) (by norm_num) (by norm_num) (by norm_num)
      (by norm_num [posFuns]) (by norm_num [posFuns])⟩

/-! ## C8: the Kepler solver on the real numbers -/

/-- C8.  For every mean anomaly and every eccentricity `0 ≤ e < 1`, the
Newton-Raphson derivative `1 - e cos E` is strictly positive (so the
solver never divides by zero); the checked solver agrees with the
source's solver at every fuel value, in particular at the budget of 100
iterations from the initial guess `E₀ = M`; with the fuel exhausted the
last estimate is returned rather than an error; and one step whose
update satisfies `|ΔE| < 1e-8` returns that update at once. -/
theorem C8_kepler_solver_no_division_by_zero (M e : ℝ) (he0 : 0 ≤ e)
    (he1 : e < 1) :
    (∀ E : ℝ, 0 < 1 - e * Real.cos E) ∧
    (∀ (fuel : ℕ) (E : ℝ),
      solveKeplerCheckedGo
          ⟨Real.sin, Real.cos, Real.sqrt, Real.exp, Real.arcsin,
            fun y x => Complex.arg ⟨x, y⟩,
            fun x => Real.log x / Real.log 10, fun x y => x ^ y, Real.pi,
            fun _ => false⟩ M e 1e-8 fuel E =
        some (solveKeplerGo
          ⟨Real.sin, Real.cos, Real.sqrt, Real.exp, Real.arcsin,
            fun y x => Complex.arg ⟨x, y⟩,
            fun x => Real.log x / Real.log 10, fun x y => x ^ y, Real.pi,
            fun _ => false⟩ M e 1e-8 fuel E)) ∧
    solveKeplerChecked
        ⟨Real.sin, Real.cos, Real.sqrt, Real.exp, Real.arcsin,
          fun y x => Complex.arg ⟨x, y⟩,
          fun x => Real.log x / Real.log 10, fun x y => x ^ y, Real.pi,
          fun _ => false⟩ M e =
      some (solve_keplers_equation
        ⟨Real.sin, Real.cos, Real.sqrt, Real.exp, Real.arcsin,
          fun y x => Complex.arg ⟨x, y⟩,
          fun x => Real.log x / Real.log 10, fun x y => x ^ y, Real.pi,
          fun _ => false⟩ M e) ∧
    (∀ E : ℝ,
      solveKeplerCheckedGo
          ⟨Real.sin, Real.cos, Real.sqrt, Real.exp, Real.arcsin,
            fun y x => Complex.arg ⟨x, y⟩,
            fun x => Real.log x / Real.log 10, fun x y => x ^ y, Real.pi,
            fun _ => false⟩ M e 1e-8 0 E = some E) ∧
    (∀ (n : ℕ) (E : ℝ),
      |E - (E - e * Real.sin E - M) / (1 - e * Real.cos E) - E| < 1e-8 →
        solveKeplerCheckedGo
            ⟨Real.sin, Real.cos, Real.sqrt, Real.exp, Real.arcsin,
              fun y x => Complex.arg ⟨x, y⟩,
              fun x => Real.log x / Real.log 10, fun x y => x ^ y, Real.pi,
              fun _ => false⟩ M e 1e-8 (n + 1) E =
          some (E - (E - e * Real.sin E - M) / (1 - e * Real.cos E))) := by
  have hfp : ∀ E : ℝ, 0 < 1 - e * Real.cos E := by
    intro E
    have h1 : e * Real.cos E ≤ e :=
      mul_le_of_le_one_right he0 (Real.cos_le_one E)
    linarith
  have hagree : ∀ (fuel : ℕ) (E : ℝ),
      solveKeplerCheckedGo
          ⟨Real.sin, Real.cos, Real.sqrt, Real.exp, Real.arcsin,
            fun y x => Complex.arg ⟨x, y⟩,
            fun x => Real.log x / Real.log 10, fun x y => x ^ y, Real.pi,
            fun _ => false⟩ M e 1e-8 fuel E =
        some (solveKeplerGo
          ⟨Real.sin, Real.cos, Real.sqrt, Real.exp, Real.arcsin,
            fun y x => Complex.arg ⟨x, y⟩,
            fun x => Real.log x / Real.log 10, fun x y => x ^ y, Real.pi,
            fun _ => false⟩ M e 1e-8 fuel E) := by
    intro fuel
    induction fuel with
    | zero => intro E; rfl
    | succ n ih =>
      intro E
      rw [solveKeplerCheckedGo, solveKeplerGo]
      rw [if_neg (ne_of_gt (hfp E))]
      by_cases htol :
          |E - (E - e * Real.sin E - M) / (1 - e * Real.cos E) - E| <
            (1e-8 : ℝ)
      · rw [if_pos htol, if_pos htol]
      · rw [if_neg htol, if_neg htol]
        exact ih _
  refine ⟨hfp, hagree, hagree 100 M, fun E => rfl, ?_⟩
  intro n E htol
  rw [solveKeplerCheckedGo]
  rw [if_neg (ne_of_gt (hfp E))]
  rw [if_pos htol]

/-- Witness for C8 at the concrete input `M = 0`, `e = 0`. -/
theorem C8_kepler_solver_witness :
    ((0 : ℝ) ≤ 0 ∧ (0 : ℝ) < 1) ∧
      solveKeplerChecked
          ⟨Real.sin, Real.cos, Real.sqrt, Real.exp, Real.arcsin,
            fun y x => Complex.arg ⟨x, y⟩,
            fun x => Real.log x / Real.log 10, fun x y => x ^ y, Real.pi,
            fun _ => false⟩ 0 0 =
        some (solve_keplers_equation
          ⟨Real.sin, Real.cos, Real.sqrt, Real.exp, Real.arcsin,
            fun y x => Complex.arg ⟨x, y⟩,
            fun x => Real.log x / Real.log 10, fun x y => x ^ y, Real.pi,
            fun _ => false⟩ 0 0) :=
  ⟨⟨le_refl 0, by norm_num⟩,
    (C8_kepler_solver_no_division_by_zero 0 0 (le_refl 0)
        (by norm_num)).2.2.1⟩

/-! ## The Keplerian position at mean anomaly zero (C5, C4) -/

/-- At `M = 0` the Newton-Raphson solver converges on its first
iteration to `E = 0` (for any bundle whose `sin` vanishes at zero). -/
lemma solve_kepler_zero (F : RealFuns α) (hs : F.sin 0 = 0) (e : α) :
    solve_keplers_equation F 0 e = 0 := by
  show solveKeplerGo F 0 e 1e-8 (99 + 1) 0 = 0
  rw [solveKeplerGo]
  norm_num [hs]

/-- The column of the periapsis→inclination→RAAN rotation applied to
`(r, 0, 0)` has squared norm `r ^ 2`. -/
lemma rot_row_sq (co so cw sw ci si r : α) (ho : so ^ 2 + co ^ 2 = 1)
    (hw : sw ^ 2 + cw ^ 2 = 1) (hi : si ^ 2 + ci ^ 2 = 1) :
    ((co * cw - so * sw * ci) * r) ^ 2 +
        ((so * cw + co * sw * ci) * r) ^ 2 + (sw * si * r) ^ 2 = r ^ 2 := by
  linear_combination (r ^ 2 * (cw ^ 2 + sw ^ 2 * ci ^ 2)) * ho +
    (r ^ 2 * sw ^ 2) * hi + r ^ 2 * hw

/-- The heliocentric position `keplerian_to_cartesian` returns at mean
anomaly `0`, under the genuine real functions: the rotation applied to
`(a·AU·(1-e), 0, 0)`. -/
lemma kepler_position_ma_zero (a e i om w : ℝ) :
    (keplerian_to_cartesian
        ⟨Real.sin, Real.cos, Real.sqrt, Real.exp, Real.arcsin,
          fun y x => Complex.arg ⟨x, y⟩,
          fun x => Real.log x / Real.log 10, fun x y => x ^ y, Real.pi,
          fun _ => false⟩ ⟨a, e, i, om, w, 0⟩).1 =
      ⟨(Real.cos (om * Real.pi / 180) * Real.cos (w * Real.pi / 180) -
          Real.sin (om * Real.pi / 180) * Real.sin (w * Real.pi / 180) *
            Real.cos (i * Real.pi / 180)) * (a * AU_TO_KM * (1 - e)),
        (Real.sin (om * Real.pi / 180) * Real.cos (w * Real.pi / 180) +
          Real.cos (om * Real.pi / 180) * Real.sin (w * Real.pi / 180) *
            Real.cos (i * Real.pi / 180)) * (a * AU_TO_KM * (1 - e)),
        Real.sin (w * Real.pi / 180) * Real.sin (i * Real.pi / 180) *
          (a * AU_TO_KM * (1 - e))⟩ := by
  have hE : solve_keplers_equation
      ⟨Real.sin, Real.cos, Real.sqrt, Real.exp, Real.arcsin,
        fun y x => Complex.arg ⟨x, y⟩,
        fun x => Real.log x / Real.log 10, fun x y => x ^ y, Real.pi,
        fun _ => false⟩ 0 e = 0 :=
    solve_kepler_zero _ Real.sin_zero e
  have harg : Complex.arg ⟨Real.sqrt (1 - e), 0⟩ = 0 := by
    rw [show (⟨Real.sqrt (1 - e), 0⟩ : ℂ) =
        ((Real.sqrt (1 - e) : ℝ) : ℂ) from rfl]
    exact Complex.arg_ofReal_of_nonneg (Real.sqrt_nonneg _)
  simp [keplerian_to_cartesian, radiansF, hE, harg, Real.sin_zero,
    Real.cos_zero]

lemma sqNorm_mk (x y z : α) :
    Vec3.sqNorm ⟨x, y, z⟩ = x ^ 2 + y ^ 2 + z ^ 2 := rfl

/-- C5.  For `a > 0`, `0 ≤ e < 1` and mean anomaly `0`, the heliocentric
position returned by `keplerian_to_cartesian` (in km) has norm equal to
the perihelion distance `a (1 - e)` (scaled to km by `AU_TO_KM`), in
particular within the claimed `1e-6` relative tolerance. -/
theorem C5_perihelion_distance_at_ma_zero (a e i om w : ℝ) (ha : 0 < a)
    (he0 : 0 ≤ e) (he1 : e < 1) :
    |Real.sqrt (Vec3.sqNorm
        (keplerian_to_cartesian
          ⟨Real.sin, Real.cos, Real.sqrt, Real.exp, Real.arcsin,
            fun y x => Complex.arg ⟨x, y⟩,
            fun x => Real.log x / Real.log 10, fun x y => x ^ y, Real.pi,
            fun _ => false⟩ ⟨a, e, i, om, w, 0⟩).1) -
      a * AU_TO_KM * (1 - e)| ≤ 1e-6 * (a * AU_TO_KM * (1 - e)) := by
  rw [kepler_position_ma_zero, sqNorm_mk]
  rw [rot_row_sq (Real.cos (om * Real.pi / 180))
      (Real.sin (om * Real.pi / 180)) (Real.cos (w * Real.pi / 180))
      (Real.sin (w * Real.pi / 180)) (Real.cos (i * Real.pi / 180))
      (Real.sin (i * Real.pi / 180)) (a * AU_TO_KM * (1 - e))
      (Real.sin_sq_add_cos_sq _) (Real.sin_sq_add_cos_sq _)
      (Real.sin_sq_add_cos_sq _)]
  have hAU : (0 : ℝ) < AU_TO_KM := by norm_num [AU_TO_KM]
  have hr : 0 < a * AU_TO_KM * (1 - e) := by
    apply mul_pos (mul_pos ha hAU)
    linarith
  rw [Real.sqrt_sq hr.le, sub_self, abs_zero]
  nlinarith [hr]

/-- Witness for C5 at the concrete input `a = 1`, `e = 0` (remaining
angles zero). -/
theorem C5_perihelion_distance_witness :
    ((0 : ℝ) < 1 ∧ (0 : ℝ) ≤ 0 ∧ (0 : ℝ) < 1) ∧
      |Real.sqrt (Vec3.sqNorm
          (keplerian_to_cartesian
            ⟨Real.sin, Real.cos, Real.sqrt, Real.exp, Real.arcsin,
              fun y x => Complex.arg ⟨x, y⟩,
              fun x => Real.log x / Real.log 10, fun x y => x ^ y, Real.pi,
              fun _ => false⟩ ⟨1, 0, 0, 0, 0, 0⟩).1) -
        1 * AU_TO_KM * (1 - 0)| ≤ 1e-6 * (1 * AU_TO_KM * (1 - 0)) :=
  ⟨⟨by norm_num, le_refl 0, by norm_num⟩,
    C5_perihelion_distance_at_ma_zero 1 0 0 0 0 (by norm_num) (le_refl 0)
      (by norm_num)⟩

/-! ## C9: `compute_impact_effects` at impact angle 0° -/

set_option maxHeartbeats 1000000 in
/-- C9.  At impact angle exactly 0° (with positive diameter, velocity
and density) the π-group term `pi_2 = g r sin(0) / v² = 0` is raised to
the negative power `-0.22`, which in Python raises `ZeroDivisionError`;
for every angle strictly between 0° and 90° the computation is total. -/
theorem C9_angle_zero_division_error (d v ρ : ℝ) (hd : 0 < d)
    (hv : 0 < v) (hρ : 0 < ρ) :
    compute_impact_effects
        ⟨Real.sin, Real.cos, Real.sqrt, Real.exp, Real.arcsin,
          fun y x => Complex.arg ⟨x, y⟩,
          fun x => Real.log x / Real.log 10, fun x y => x ^ y, Real.pi,
          fun _ => false⟩ d v ρ 0 =
      .error "0.0 cannot be raised to a negative power" ∧
    ∀ ang : ℝ, 0 < ang → ang < 90 →
      ∃ e, compute_impact_effects
          ⟨Real.sin, Real.cos, Real.sqrt, Real.exp, Real.arcsin,
            fun y x => Complex.arg ⟨x, y⟩,
            fun x => Real.log x / Real.log 10, fun x y => x ^ y, Real.pi,
            fun _ => false⟩ d v ρ ang = .ok e := by
  constructor
  · have hvms2 : ((v * 1000) ^ 2 : ℝ) ≠ 0 := by positivity
    have herr : pypow
        ⟨Real.sin, Real.cos, Real.sqrt, Real.exp, Real.arcsin,
          fun y x => Complex.arg ⟨x, y⟩,
          fun x => Real.log x / Real.log 10, fun x y => x ^ y, Real.pi,
          fun _ => false⟩ (0 : ℝ) (-(0.22 : ℝ)) =
        .error "0.0 cannot be raised to a negative power" := by
      rw [pypow, if_pos ⟨rfl, by norm_num⟩]
    simp [compute_impact_effects, radiansF, Real.sin_zero, hvms2, herr,
      Except.bind, bind, pure, Except.pure, throw, throwThe,
      MonadExceptOf.throw]
  · intro ang hang0 hang90
    have hpi := Real.pi_pos
    have hradpos : 0 < ang * Real.pi / 180 := by positivity
    have hradlt : ang * Real.pi / 180 < Real.pi := by
      have h1 : ang * Real.pi < 90 * Real.pi :=
        mul_lt_mul_of_pos_right hang90 hpi
      have h2 : ang * Real.pi / 180 < 90 * Real.pi / 180 :=
        div_lt_div_of_pos_right h1 (by norm_num)
      have h3 : (90 : ℝ) * Real.pi / 180 = Real.pi / 2 := by ring
      rw [h3] at h2
      linarith
    have hsin : 0 < Real.sin (ang * Real.pi / 180) :=
      Real.sin_pos_of_pos_of_lt_pi hradpos hradlt
    obtain ⟨e, he, -, -⟩ := compute_impact_effects_ok
      ⟨Real.sin, Real.cos, Real.sqrt, Real.exp, Real.arcsin,
        fun y x => Complex.arg ⟨x, y⟩,
        fun x => Real.log x / Real.log 10, fun x y => x ^ y, Real.pi,
        fun _ => false⟩ d v ρ ang hd hv hρ hpi (by
          simpa [radiansF] using hsin)
    exact ⟨e, he⟩

/-- Witness for C9 at the concrete input `d = v = ρ = 1`. -/
theorem C9_angle_zero_division_witness :
    ((0 : ℝ) < 1 ∧ (0 : ℝ) < 1 ∧ (0 : ℝ) < 1) ∧
      compute_impact_effects
          ⟨Real.sin, Real.cos, Real.sqrt, Real.exp, Real.arcsin,
            fun y x => Complex.arg ⟨x, y⟩,
            fun x => Real.log x / Real.log 10, fun x y => x ^ y, Real.pi,
            fun _ => false⟩ 1 1 1 0 =
        .error "0.0 cannot be raised to a negative power" :=
  ⟨⟨by norm_num, by norm_num, by norm_num⟩,
    (C9_angle_zero_division_error 1 1 1 (by norm_num) (by norm_num)
        (by norm_num)).1⟩

/-! ## C4: the `is_collision_zone` flag -/

/-- The stored flag of every generated point is exactly the radial test
against the stored distance-from-Sun (the source computes both from the
same local). -/
lemma vizPoint_flag (F : RealFuns α) (el : OrbElems α) (total i : ℕ) :
    (vizPoint F el total i true).is_collision_zone =
      decide (|(vizPoint F el total i true).distance_from_sun_au - 1| <
        collision_threshold_au) := rfl

/-- Every point of the visualization loop is the loop body's point at
some index. -/
lemma vizGo_mem (F : RealFuns α) (el : OrbElems α) (total : ℕ) (c : Bool) :
    ∀ (fuel i : ℕ) (det : Bool) (p : VizPoint α),
      p ∈ vizGo F el total c fuel i det →
        ∃ j, p = vizPoint F el total j c := by
  intro fuel
  induction fuel with
  | zero =>
    intro i det p hp
    simp [vizGo] at hp
  | succ n ih =>
    intro i det p hp
    simp only [vizGo] at hp
    rcases List.mem_cons.mp hp with h | h
    · exact ⟨i, h⟩
    · by_cases hc : ((det || (c && vizCollides F el total i)) && c) = true
      · rw [if_pos hc] at h
        simp at h
      · rw [if_neg hc] at h
        exact ih (i + 1) _ p h

/-- C4 (amended).  With collision checking enabled, a generated point's
`is_collision_zone` flag is true exactly when the radial condition
holds — `|distance_from_sun - 1 AU|` within the threshold.  The 3-D
distance to the fixed Earth estimate `(1, 0, 0)` AU only controls
`collision_detected` (loop truncation), not the flag. -/
theorem C4_collision_flag_tests_radial_distance_only (F : RealFuns α)
    (el : OrbElems α) (num_points : ℕ) (full_orbit : Bool)
    (p : VizPoint α)
    (hp : p ∈ generate_trajectory_visualization F el num_points true
      full_orbit) :
    p.is_collision_zone = true ↔
      |p.distance_from_sun_au - 1| < collision_threshold_au := by
  obtain ⟨j, rfl⟩ := vizGo_mem F el _ true _ 0 false p hp
  rw [vizPoint_flag]
  exact decide_eq_true_iff

/-- Witness for C4's amended statement: the first generated point of a
concrete one-point run. -/
theorem C4_collision_flag_witness :
    (vizPoint trivFuns ⟨1, 0, 0, 0, 0, 0⟩ 1 0 true ∈
        generate_trajectory_visualization trivFuns ⟨1, 0, 0, 0, 0, 0⟩ 1
          true false) ∧
      ((vizPoint trivFuns ⟨1, 0, 0, 0, 0, 0⟩ 1 0 true).is_collision_zone =
          true ↔
        |(vizPoint trivFuns ⟨1, 0, 0, 0, 0, 0⟩ 1 0
              true).distance_from_sun_au - 1| < collision_threshold_au) := by
  have hmem : vizPoint trivFuns ⟨1, 0, 0, 0, 0, 0⟩ 1 0 true ∈
      generate_trajectory_visualization trivFuns ⟨1, 0, 0, 0, 0, 0⟩ 1 true
        false := by
    show vizPoint trivFuns ⟨1, 0, 0, 0, 0, 0⟩ 1 0 true ∈
      vizGo trivFuns ⟨1, 0, 0, 0, 0, 0⟩ 1 true (0 + 1) 0 false
    rw [vizGo]
    exact List.mem_cons_self _ _
  exact ⟨hmem, C4_collision_flag_tests_radial_distance_only trivFuns
    ⟨1, 0, 0, 0, 0, 0⟩ 1 false _ hmem⟩

/-- The first generated point for the circular 1 AU orbit with argument
of periapsis 180°: position `(-1, 0, 0)` AU, heliocentric distance 1,
and the collision flag set. -/
lemma vizPoint_eval_C4 :
    vizPoint
        ⟨Real.sin, Real.cos, Real.sqrt, Real.exp, Real.arcsin,
          fun y x => Complex.arg ⟨x, y⟩,
          fun x => Real.log x / Real.log 10, fun x y => x ^ y, Real.pi,
          fun _ => false⟩ ⟨1, 0, 0, 0, 180, 0⟩ 1 0 true =
      ⟨-1, 0, 0, 0, 0, 1, true⟩ := by
  have h180 : (180 : ℝ) * Real.pi / 180 = Real.pi := by field_simp
  have hthr : (0 : ℝ) < collision_threshold_au := by
    norm_num [collision_threshold_au, EARTH_RADIUS, AU_TO_KM]
  simp only [vizPoint, pymod, Nat.cast_zero, Nat.cast_one, mul_zero,
    zero_div, Int.floor_zero, Int.cast_zero, sub_zero]
  rw [kepler_position_ma_zero]
  simp only [zero_mul, zero_div, h180, Real.cos_zero, Real.sin_zero,
    Real.cos_pi, Real.sin_pi, Vec3.sdiv, sqNorm_mk]
  norm_num [AU_TO_KM, Real.sqrt_one, hthr]

/-- C4 (counterexample to the claim as stated).  The claim requires the
flag to hold exactly when the radial condition *and* the 3-D proximity
to `(1, 0, 0)` AU both hold; this run produces a flagged point at
distance 2 AU from the Earth estimate, far beyond the threshold. -/
theorem C4_collision_flag_counterexample :
    ∃ p ∈ generate_trajectory_visualization
        ⟨Real.sin, Real.cos, Real.sqrt, Real.exp, Real.arcsin,
          fun y x => Complex.arg ⟨x, y⟩,
          fun x => Real.log x / Real.log 10, fun x y => x ^ y, Real.pi,
          fun _ => false⟩ ⟨1, 0, 0, 0, 180, 0⟩ 1 true false,
      p.is_collision_zone = true ∧
      collision_threshold_au ≤
        Real.sqrt ((p.x - 1) ^ 2 + p.y ^ 2 + p.z ^ 2) := by
  have hmem : vizPoint
      ⟨Real.sin, Real.cos, Real.sqrt, Real.exp, Real.arcsin,
        fun y x => Complex.arg ⟨x, y⟩,
        fun x => Real.log x / Real.log 10, fun x y => x ^ y, Real.pi,
        fun _ => false⟩ ⟨1, 0, 0, 0, 180, 0⟩ 1 0 true ∈
      generate_trajectory_visualization
        ⟨Real.sin, Real.cos, Real.sqrt, Real.exp, Real.arcsin,
          fun y x => Complex.arg ⟨x, y⟩,
          fun x => Real.log x / Real.log 10, fun x y => x ^ y, Real.pi,
          fun _ => false⟩ ⟨1, 0, 0, 0, 180, 0⟩ 1 true false := by
    show vizPoint _ ⟨1, 0, 0, 0, 180, 0⟩ 1 0 true ∈
      vizGo _ ⟨1, 0, 0, 0, 180, 0⟩ 1 true (0 + 1) 0 false
    rw [vizGo]
    exact List.mem_cons_self _ _
  refine ⟨_, hmem, ?_, ?_⟩
  · rw [vizPoint_eval_C4]
  · rw [vizPoint_eval_C4]
    have h4 : ((-1 : ℝ) - 1) ^ 2 + (0 : ℝ) ^ 2 + (0 : ℝ) ^ 2 = 4 := by
      norm_num
    show collision_threshold_au ≤
      Real.sqrt (((-1 : ℝ) - 1) ^ 2 + (0 : ℝ) ^ 2 + (0 : ℝ) ^ 2)
    rw [h4, show (4 : ℝ) = 2 ^ 2 by norm_num,
      Real.sqrt_sq (by norm_num : (0 : ℝ) ≤ 2)]
    norm_num [collision_threshold_au, EARTH_RADIUS, AU_TO_KM]

end MeteorSim
